import Mathlib

/-! Face-tracked off-axis camera (`face_tracker.js`)

A shallow embedding of the per-frame control loop `faceTracking` and of the
projection routine `perspectiveOffCenter`, followed by the properties of the
written specification that were checked against it.

Numbers are JavaScript numbers in exact arithmetic: every finite value is a
rational, there is no rounding and a single zero, and the non-finite results
that JavaScript produces (`Infinity`, `-Infinity`, `NaN`) as well as the value
`undefined` of an unassigned `let` are kept as separate values, so that a
division by zero is visible in the model instead of being silently defined.

The program itself computes in IEEE double precision, so the model and the
program agree up to the rounding of each operation and as long as no result
leaves the range of the doubles. The statements below are kept to what both
satisfy. They are either relative to the operations of the program (a result
is a given expression in `+`, `-`, `*`, `/` of the inputs, whatever these
operations return), or they assert a sign, an inequality or an exact value
under hypotheses that keep the computation away from the points where
rounding changes the outcome; each such hypothesis is named in the comment of
its theorem.
-/

namespace FaceTracker

/-! ## JavaScript numbers -/

/-- A JavaScript value as far as this program handles them: `undefined`
(an unassigned module-level `let`), `NaN`, the two infinities, or a finite
number. -/
inductive Val where
  | undefined
  | nan
  | posInf
  | negInf
  | fin (q : ℚ)
  deriving DecidableEq, Repr

namespace Val

/-- Unary minus. `undefined` converts to `NaN`. -/
def neg : Val → Val
  | undefined => nan
  | nan => nan
  | posInf => negInf
  | negInf => posInf
  | fin q => fin (-q)

/-- The infinity with the sign of `q`, and `NaN` for `q = 0`
(the value of `Infinity * q`). -/
def infTimes (q : ℚ) : Val :=
  if q = 0 then nan else if 0 < q then posInf else negInf

/-- Binary `+`. -/
def add : Val → Val → Val
  | fin a, fin b => fin (a + b)
  | fin _, posInf => posInf
  | fin _, negInf => negInf
  | posInf, fin _ => posInf
  | negInf, fin _ => negInf
  | posInf, posInf => posInf
  | negInf, negInf => negInf
  | _, _ => nan

/-- Binary `-`. -/
def sub (a b : Val) : Val := add a (neg b)

/-- Binary `*`. -/
def mul : Val → Val → Val
  | fin a, fin b => fin (a * b)
  | fin a, posInf => infTimes a
  | fin a, negInf => infTimes (-a)
  | posInf, fin b => infTimes b
  | negInf, fin b => infTimes (-b)
  | posInf, posInf => posInf
  | negInf, negInf => posInf
  | posInf, negInf => negInf
  | negInf, posInf => negInf
  | _, _ => nan

/-- Binary `/`. A finite number divided by zero is `NaN` (for `0/0`) or an
infinity with the sign of the dividend; zero is the positive zero. -/
def div : Val → Val → Val
  | fin a, fin b =>
      if b = 0 then (if a = 0 then nan else if 0 < a then posInf else negInf)
      else fin (a / b)
  | fin _, posInf => fin 0
  | fin _, negInf => fin 0
  | posInf, fin b => if 0 ≤ b then posInf else negInf
  | negInf, fin b => if 0 ≤ b then negInf else posInf
  | _, _ => nan

/-- The comparison `a < b` of two numbers. -/
def lt : Val → Val → Bool
  | fin a, fin b => decide (a < b)
  | fin _, posInf => true
  | negInf, fin _ => true
  | negInf, posInf => true
  | _, _ => false

/-- The loose inequality `a != b`: `NaN` differs from everything, itself
included; `undefined` equals only `undefined`. -/
def looseNe : Val → Val → Bool
  | undefined, undefined => false
  | posInf, posInf => false
  | negInf, negInf => false
  | fin a, fin b => decide (a ≠ b)
  | _, _ => true

end Val

/-! ## The matrix type of the rendering library -/

/-- Modelled from the spec: `THREE.Matrix4` belongs to the rendering library,
which is not part of the repository. It is taken as the sixteen entries of a
4×4 matrix, `nij` being the entry of row `i` and column `j`. -/
structure Matrix4 where
  n11 : Val
  n12 : Val
  n13 : Val
  n14 : Val
  n21 : Val
  n22 : Val
  n23 : Val
  n24 : Val
  n31 : Val
  n32 : Val
  n33 : Val
  n34 : Val
  n41 : Val
  n42 : Val
  n43 : Val
  n44 : Val
  deriving DecidableEq, Repr

namespace Matrix4

/-- Modelled from the spec: `new THREE.Matrix4()`, the identity matrix. -/
def identity : Matrix4 :=
  ⟨.fin 1, .fin 0, .fin 0, .fin 0,
   .fin 0, .fin 1, .fin 0, .fin 0,
   .fin 0, .fin 0, .fin 1, .fin 0,
   .fin 0, .fin 0, .fin 0, .fin 1⟩

/-- Modelled from the spec: `Matrix4.set`, whose sixteen arguments are read
row by row and replace every entry of the receiver. -/
def set (_m : Matrix4)
    (a11 a12 a13 a14 a21 a22 a23 a24 a31 a32 a33 a34 a41 a42 a43 a44 : Val) : Matrix4 :=
  ⟨a11, a12, a13, a14, a21, a22, a23, a24, a31, a32, a33, a34, a41, a42, a43, a44⟩

/-- The four rows of a matrix, in order. -/
def rows (m : Matrix4) : List (List Val) :=
  [[m.n11, m.n12, m.n13, m.n14],
   [m.n21, m.n22, m.n23, m.n24],
   [m.n31, m.n32, m.n33, m.n34],
   [m.n41, m.n42, m.n43, m.n44]]

end Matrix4

/-! ## `perspectiveOffCenter` -/

/-- Source lines 294-305. -/
def perspectiveOffCenter (left right bottom top near far : Val) : Matrix4 :=
  let x := Val.div (Val.mul (.fin 2) near) (Val.sub right left)
  let y := Val.div (Val.mul (.fin 2) near) (Val.sub top bottom)
  let a := Val.div (Val.add right left) (Val.sub right left)
  let b := Val.div (Val.add top bottom) (Val.sub top bottom)
  let c := Val.div (Val.neg (Val.add far near)) (Val.sub far near)
  let d := Val.div (Val.neg (Val.mul (Val.mul (.fin 2) far) near)) (Val.sub far near)
  let e := Val.fin (-1)
  let m := Matrix4.identity
  m.set x (.fin 0) a (.fin 0) (.fin 0) y b (.fin 0) (.fin 0) (.fin 0) c d (.fin 0) (.fin 0) e (.fin 0)

/-! ## Program state -/

/-- A point with three coordinates (`position`, `scale`). -/
structure Vec3 where
  x : Val
  y : Val
  z : Val
  deriving DecidableEq, Repr

/-- The object `virtual_camera` (the a-frame scene camera), as far as the
program writes it. -/
structure Camera where
  position : Vec3
  projectionMatrix : Matrix4
  deriving DecidableEq, Repr

/-- The `boundingBox` of a prediction: `topLeft` and `bottomRight`, each an
array of two finite pixel coordinates (index 0 and index 1). -/
structure BoundingBox where
  topLeft : ℚ × ℚ
  bottomRight : ℚ × ℚ
  deriving DecidableEq, Repr

/-- One element of the array returned by `face_model.estimateFaces`. -/
structure Prediction where
  boundingBox : BoundingBox
  deriving DecidableEq, Repr

/-- The module-level variables of `face_tracker.js` that `faceTracking` reads or
writes, the two page elements it updates, and counters for the calls it makes
to its environment. `canvas_element` and `virtual_camera` are bound by
`window.onload` before any frame runs and are taken as bound. Output of
`console.log` is not part of the state. -/
structure State where
  /-- True when `video_element` is bound. -/
  video_element : Bool
  /-- True when `face_model` is bound. -/
  face_model : Bool
  virtual_camera : Camera
  screen_width : Val
  screen_height : Val
  half_width : Val
  half_height : Val
  face_tracking_enabled : Bool
  /-- The `scale` attribute of the element with id `room`, if the element exists. -/
  room : Option Vec3
  /-- The text of the element with id `status`, if the element exists. -/
  status : Option String
  /-- Number of calls of `face_model.estimateFaces`. -/
  detector_calls : ℕ
  /-- Number of calls of `window.requestAnimationFrame(faceTracking)`. -/
  animation_requests : ℕ
  /-- Number of `keydown` listeners added by `initializeBasicCameraControl`. -/
  keydown_listeners : ℕ
  deriving DecidableEq, Repr

/-- The value with which the awaited call of `estimateFaces` rejects (any value
can be thrown): `nullish` for `undefined` or `null`, on which reading
`error.message` (line 286) throws a `TypeError`, and `value` for every other
value, on which the read succeeds and yields the message, if there is one. -/
inductive Thrown where
  | nullish
  | value (message : Option String)
  deriving DecidableEq, Repr

/-- What one invocation of `faceTracking` reads from its environment: the canvas
size (lines 245-247), the outcome of `estimateFaces` (line 260; `error` with
the thrown value when the awaited call throws) and the frame size of the video (lines 267-268).
The `width` and `height` of a canvas and the `videoWidth` and `videoHeight` of
a video element are unsigned integers, zero included. -/
structure Frame where
  canvas_width : ℕ
  canvas_height : ℕ
  videoWidth : ℕ
  videoHeight : ℕ
  predictions : Except Thrown (List Prediction)

/-! ## `initializeBasicCameraControl` and `updateStatus` -/

/-- Source lines 197-202. -/
def updateStatus (s : State) (message : String) : State :=
  { s with status := s.status.map (fun _ => message) }

/-- Source lines 181-194. -/
def initializeBasicCameraControl (s : State) : State :=
  let s1 := { s with keydown_listeners := s.keydown_listeners + 1 }
  let s2 := { s1 with
    virtual_camera := { s1.virtual_camera with position := ⟨.fin 0, .fin 0, .fin (5/2)⟩ } }
  updateStatus s2 "Face tracking not available - using keyboard controls"

/-! ## `faceTracking` -/

/-- The condition of the `if` on line 245. -/
def faceTracking_resized (s : State) (canvas_width canvas_height : ℕ) : Bool :=
  Val.looseNe s.screen_width (.fin canvas_width) ||
    Val.looseNe s.screen_height (.fin canvas_height)

/-- Source lines 245-257: the viewport-extent step. -/
def faceTracking_extent (s : State) (canvas_width canvas_height : ℕ) : State :=
  if faceTracking_resized s canvas_width canvas_height then
    let s1 := { s with screen_width := .fin canvas_width }
    let s2 := { s1 with screen_height := .fin canvas_height }
    let height := Val.div s2.screen_height s2.screen_width
    let s3 := { s2 with room := s2.room.map (fun _ => ⟨.fin 1, height, .fin 1⟩) }
    let s4 := { s3 with half_width := .fin (1/2) }
    { s4 with half_height := Val.div height (.fin 2) }
  else s

/-- The guard of lines 239-241 (`true` when the function returns at once). -/
def faceTracking_guard (s : State) : Bool :=
  !s.face_tracking_enabled || !s.face_model || !s.video_element

/-- Source lines 239-260, up to the `await`: `none` when the guard returns,
otherwise the state in which the call of `estimateFaces` is pending. -/
def faceTracking_start (s : State) (canvas_width canvas_height : ℕ) : Option State :=
  if faceTracking_guard s then none
  else
    let s1 := faceTracking_extent s canvas_width canvas_height
    some { s1 with detector_calls := s1.detector_calls + 1 }

/-- Line 267. -/
def center_x (p : Prediction) (videoWidth : ℕ) : Val :=
  Val.sub (Val.div (.fin (p.boundingBox.topLeft.1 + p.boundingBox.bottomRight.1))
    (.fin videoWidth)) (.fin 1)

/-- Line 268. -/
def center_y (p : Prediction) (videoHeight : ℕ) : Val :=
  Val.sub (Val.div (.fin (p.boundingBox.topLeft.2 + p.boundingBox.bottomRight.2))
    (.fin videoHeight)) (.fin 1)

/-- The six arguments of a call of `perspectiveOffCenter`. -/
structure Frustum where
  left : Val
  right : Val
  bottom : Val
  top : Val
  near : Val
  far : Val
  deriving DecidableEq, Repr

/-- The arguments that lines 275-277 pass to `perspectiveOffCenter`, read from
the state at that point. -/
def faceTracking_frustum (s : State) : Frustum :=
  { left := Val.sub (Val.neg s.half_width) s.virtual_camera.position.x
    right := Val.sub s.half_width s.virtual_camera.position.x
    bottom := Val.sub (Val.neg s.half_height) s.virtual_camera.position.y
    top := Val.sub s.half_height s.virtual_camera.position.y
    near := s.virtual_camera.position.z
    far := .fin 5 }

/-- Source lines 262-277: the body of `if (predictions.length > 0)`, for the
first prediction `p`. -/
def faceTracking_detected (s : State) (videoWidth videoHeight : ℕ) (p : Prediction) : State :=
  let cx := center_x p videoWidth
  let cy := center_y p videoHeight
  let s1 := { s with virtual_camera := { s.virtual_camera with
    position := { s.virtual_camera.position with x := Val.mul (Val.neg cx) s.half_width } } }
  let s2 := { s1 with virtual_camera := { s1.virtual_camera with
    position := { s1.virtual_camera.position with y := Val.mul (Val.neg cy) s1.half_height } } }
  let s3 := { s2 with virtual_camera := { s2.virtual_camera with
    position := { s2.virtual_camera.position with z := .fin (5/2) } } }
  let f := faceTracking_frustum s3
  { s3 with virtual_camera := { s3.virtual_camera with
    projectionMatrix := perspectiveOffCenter f.left f.right f.bottom f.top f.near f.far } }

/-- Line 288: `face_tracking_enabled = false`. -/
def disableTracking (s : State) : State :=
  { s with face_tracking_enabled := false }

/-- Source lines 260-291, from the completion of the `await` on: `result` is
the outcome of `estimateFaces`, and `s` the state when the call completes.
In the `catch` block line 286 reads `error.message` before anything else: for
a nullish thrown value that read throws, the exception leaves `faceTracking`
and lines 288-290 do not run. -/
def faceTracking_resume (s : State) (videoWidth videoHeight : ℕ)
    (result : Except Thrown (List Prediction)) : State :=
  match result with
  | .ok predictions =>
      let s1 := match predictions with
        | [] => s
        | p :: _ => faceTracking_detected s videoWidth videoHeight p
      if s1.face_tracking_enabled then
        { s1 with animation_requests := s1.animation_requests + 1 }
      else s1
  | .error .nullish => s
  | .error (.value _) =>
      initializeBasicCameraControl (disableTracking s)

/-- Source lines 238-292: one invocation of `faceTracking` during which nothing
else runs while the call of `estimateFaces` is pending. -/
def faceTracking (s : State) (fr : Frame) : State :=
  match faceTracking_start s fr.canvas_width fr.canvas_height with
  | none => s
  | some s1 => faceTracking_resume s1 fr.videoWidth fr.videoHeight fr.predictions

/-- A sequence of invocations of `faceTracking`, one per frame. -/
def runFrames (s : State) : List Frame → State
  | [] => s
  | fr :: rest => runFrames (faceTracking s fr) rest

/-- How many invocations of the viewport-extent step take the branch of
line 245 when the step runs once per listed canvas size. -/
def extentRecomputations (s : State) : List (ℕ × ℕ) → ℕ
  | [] => 0
  | (w, h) :: rest =>
      (if faceTracking_resized s w h then 1 else 0) +
        extentRecomputations (faceTracking_extent s w h) rest

/-- The module-level variables when the script has been evaluated (lines 1-8)
and `window.onload` has bound the camera: nothing else is assigned. -/
def moduleState (camera : Camera) (room : Option Vec3) (status : Option String) : State :=
  { video_element := false
    face_model := false
    virtual_camera := camera
    screen_width := .undefined
    screen_height := .undefined
    half_width := .undefined
    half_height := .undefined
    face_tracking_enabled := false
    room := room
    status := status
    detector_calls := 0
    animation_requests := 0
    keydown_listeners := 0 }

/-- The state in which `loadFaceModel` makes the first call of `faceTracking`
(line 164): the video element and the model are bound and tracking is
enabled (lines 132, 162, 163). -/
def trackingState (camera : Camera) (room : Option Vec3) (status : Option String) : State :=
  { moduleState camera room status with
    video_element := true
    face_model := true
    face_tracking_enabled := true }

/-! ## Predicates and sample data used in the statements -/

/-- The camera that a detection with normalised centre `(cx, cy)` produces under
the extent `(hw, hh)`: position `(-cx * hw, -cy * hh, 2.5)` and the projection
matrix of the frustum `-hw - x`, `hw - x`, `-hh - y`, `hh - y`, `2.5`, `5` taken
at that same position. -/
def cameraTracks (cam : Camera) (cx cy hw hh : Val) : Prop :=
  cam.position.x = Val.mul (Val.neg cx) hw ∧
  cam.position.y = Val.mul (Val.neg cy) hh ∧
  cam.position.z = .fin (5/2) ∧
  cam.projectionMatrix =
    perspectiveOffCenter
      (Val.sub (Val.neg hw) cam.position.x) (Val.sub hw cam.position.x)
      (Val.sub (Val.neg hh) cam.position.y) (Val.sub hh cam.position.y)
      (.fin (5/2)) (.fin 5)

instance (cam : Camera) (cx cy hw hh : Val) : Decidable (cameraTracks cam cx cy hw hh) := by
  unfold cameraTracks
  infer_instance

/-- A camera at the origin with the identity projection, for the examples. -/
def originCamera : Camera :=
  ⟨⟨.fin 0, .fin 0, .fin 0⟩, Matrix4.identity⟩

/-- A prediction with the bounding box `(x0, y0)`-`(x1, y1)`. -/
def boxPrediction (x0 y0 x1 y1 : ℚ) : Prediction :=
  ⟨⟨(x0, y0), (x1, y1)⟩⟩

/-! ## Arithmetic on finite values -/

theorem Val.neg_fin (a : ℚ) : Val.neg (.fin a) = .fin (-a) := rfl

theorem Val.add_fin (a b : ℚ) : Val.add (.fin a) (.fin b) = .fin (a + b) := rfl

theorem Val.sub_fin (a b : ℚ) : Val.sub (.fin a) (.fin b) = .fin (a - b) := by
  simp [Val.sub, Val.add, Val.neg, sub_eq_add_neg]

theorem Val.mul_fin (a b : ℚ) : Val.mul (.fin a) (.fin b) = .fin (a * b) := rfl

theorem Val.div_fin (a b : ℚ) (hb : b ≠ 0) : Val.div (.fin a) (.fin b) = .fin (a / b) := by
  simp [Val.div, hb]

theorem Val.div_fin_natCast (a : ℚ) (n : ℕ) (hn : 0 < n) :
    Val.div (.fin a) (.fin (n : ℚ)) = .fin (a / n) :=
  Val.div_fin a n (by exact_mod_cast hn.ne')

/-! ## The projection matrix -/

/-- Claim C1: for all `left`, `right`, `bottom`, `top`, `near`, `far` the matrix
returned by `perspectiveOffCenter` has the rows `[x, 0, a, 0]`, `[0, y, b, 0]`,
`[0, 0, c, d]`, `[0, 0, e, 0]` (the sixteen arguments of `Matrix4.set` read row
by row), where `x = 2*near/(right-left)`, `y = 2*near/(top-bottom)`,
`a = (right+left)/(right-left)`, `b = (top+bottom)/(top-bottom)`,
`c = -(far+near)/(far-near)`, `d = -(2*far*near)/(far-near)` and `e = -1`, each
expression being evaluated with the operations of the program in the order
written. The statement is relative to these operations and needs none of the
hypotheses `right != left`, `top != bottom`, `far != near`. -/
theorem perspectiveOffCenter_rows (left right bottom top near far : Val) :
    (perspectiveOffCenter left right bottom top near far).rows =
      [[Val.div (Val.mul (.fin 2) near) (Val.sub right left), .fin 0,
          Val.div (Val.add right left) (Val.sub right left), .fin 0],
       [.fin 0, Val.div (Val.mul (.fin 2) near) (Val.sub top bottom),
          Val.div (Val.add top bottom) (Val.sub top bottom), .fin 0],
       [.fin 0, .fin 0, Val.div (Val.neg (Val.add far near)) (Val.sub far near),
          Val.div (Val.neg (Val.mul (Val.mul (.fin 2) far) near)) (Val.sub far near)],
       [.fin 0, .fin 0, .fin (-1), .fin 0]] := by
  simp only [perspectiveOffCenter, Matrix4.set, Matrix4.rows]

/-! ## Frames with and without a detection -/

theorem faceTracking_resume_camera_ok (s : State) (vw vh : ℕ) (ps : List Prediction) :
    (faceTracking_resume s vw vh (.ok ps)).virtual_camera =
      (match ps with
        | [] => s
        | p :: _ => faceTracking_detected s vw vh p).virtual_camera := by
  simp only [faceTracking_resume]
  split <;> rfl

theorem faceTracking_of_guard (s : State) (fr : Frame) (hg : faceTracking_guard s = false) :
    faceTracking s fr =
      faceTracking_resume
        { faceTracking_extent s fr.canvas_width fr.canvas_height with
          detector_calls :=
            (faceTracking_extent s fr.canvas_width fr.canvas_height).detector_calls + 1 }
        fr.videoWidth fr.videoHeight fr.predictions := by
  simp [faceTracking, faceTracking_start, hg]

theorem faceTracking_extent_camera (s : State) (w h : ℕ) :
    (faceTracking_extent s w h).virtual_camera = s.virtual_camera := by
  unfold faceTracking_extent
  split <;> rfl

/-- Claim C2: when the call of `estimateFaces` completes with at least one
prediction, the camera position becomes `x = -center_x * half_width`,
`y = -center_y * half_height`, `z = 2.5`, where `center_x` and `center_y` are
computed from the first bounding box and the frame size without clamping, and
the projection matrix becomes `perspectiveOffCenter` of the bounds
`-half_width - x`, `half_width - x`, `-half_height - y`, `half_height - y`,
`2.5`, `5` for that new `x` and `y`. In a whole frame that passes the guard the
extent is the one left by the viewport-extent step of that frame. -/
theorem faceTracking_detection_sets_camera (s : State) (cw ch vw vh : ℕ)
    (p : Prediction) (rest : List Prediction) :
    center_x p vw =
        Val.sub (Val.div (.fin (p.boundingBox.topLeft.1 + p.boundingBox.bottomRight.1))
          (.fin vw)) (.fin 1) ∧
    center_y p vh =
        Val.sub (Val.div (.fin (p.boundingBox.topLeft.2 + p.boundingBox.bottomRight.2))
          (.fin vh)) (.fin 1) ∧
    cameraTracks (faceTracking_resume s vw vh (.ok (p :: rest))).virtual_camera
      (center_x p vw) (center_y p vh) s.half_width s.half_height ∧
    (faceTracking_guard s = false →
      cameraTracks (faceTracking s ⟨cw, ch, vw, vh, .ok (p :: rest)⟩).virtual_camera
        (center_x p vw) (center_y p vh)
        (faceTracking_extent s cw ch).half_width (faceTracking_extent s cw ch).half_height) := by
  refine ⟨rfl, rfl, ?_, ?_⟩
  · rw [faceTracking_resume_camera_ok]
    exact ⟨rfl, rfl, rfl, rfl⟩
  · intro hg
    rw [faceTracking_of_guard _ _ hg, faceTracking_resume_camera_ok]
    exact ⟨rfl, rfl, rfl, rfl⟩

/-- Claim C2 on the first frame of a session: canvas 800×400, video frame
640×480, one face with the box (100, 50)-(300, 250). -/
theorem faceTracking_detection_sets_camera_witness :
    cameraTracks
      (faceTracking (trackingState originCamera none none)
        ⟨800, 400, 640, 480, .ok [boxPrediction 100 50 300 250]⟩).virtual_camera
      (center_x (boxPrediction 100 50 300 250) 640)
      (center_y (boxPrediction 100 50 300 250) 480)
      (faceTracking_extent (trackingState originCamera none none) 800 400).half_width
      (faceTracking_extent (trackingState originCamera none none) 800 400).half_height :=
  (faceTracking_detection_sets_camera (trackingState originCamera none none)
    800 400 640 480 (boxPrediction 100 50 300 250) []).2.2.2 rfl

/-- Claim C3: a frame in which `estimateFaces` returns an empty array leaves
the camera position and the projection matrix as they were, both from the
completion of the call on and over the whole invocation. -/
theorem faceTracking_no_detection_keeps_camera (s : State) (cw ch vw vh : ℕ) :
    (faceTracking_resume s vw vh (.ok [])).virtual_camera = s.virtual_camera ∧
    (faceTracking s ⟨cw, ch, vw, vh, .ok []⟩).virtual_camera = s.virtual_camera := by
  refine ⟨faceTracking_resume_camera_ok s vw vh [], ?_⟩
  cases hg : faceTracking_guard s
  · rw [faceTracking_of_guard _ _ hg, faceTracking_resume_camera_ok]
    exact faceTracking_extent_camera s cw ch
  · simp [faceTracking, faceTracking_start, hg]

/-! ## The viewport-extent step -/

theorem Val.looseNe_fin_iff (a : Val) (q : ℚ) : Val.looseNe a (.fin q) = true ↔ a ≠ .fin q := by
  cases a <;> simp [Val.looseNe]

theorem faceTracking_resized_iff (s : State) (w h : ℕ) :
    faceTracking_resized s w h = true ↔
      (s.screen_width ≠ .fin w ∨ s.screen_height ≠ .fin h) := by
  simp [faceTracking_resized, Val.looseNe_fin_iff]

theorem faceTracking_resized_eq_false_iff (s : State) (w h : ℕ) :
    faceTracking_resized s w h = false ↔
      (s.screen_width = .fin w ∧ s.screen_height = .fin h) := by
  rw [← Bool.not_eq_true, faceTracking_resized_iff]
  tauto

theorem faceTracking_extent_of_resized (s : State) (w h : ℕ)
    (hr : faceTracking_resized s w h = true) :
    faceTracking_extent s w h =
      { s with
        screen_width := .fin w
        screen_height := .fin h
        room := s.room.map (fun _ => ⟨.fin 1, Val.div (.fin h) (.fin w), .fin 1⟩)
        half_width := .fin (1/2)
        half_height := Val.div (Val.div (.fin h) (.fin w)) (.fin 2) } := by
  simp [faceTracking_extent, hr]

theorem faceTracking_extent_of_not_resized (s : State) (w h : ℕ)
    (hr : faceTracking_resized s w h = false) :
    faceTracking_extent s w h = s := by
  simp [faceTracking_extent, hr]

theorem faceTracking_resized_extent (s : State) (w h : ℕ) :
    faceTracking_resized (faceTracking_extent s w h) w h = false := by
  cases hr : faceTracking_resized s w h
  · rw [faceTracking_extent_of_not_resized s w h hr]
    exact hr
  · rw [faceTracking_extent_of_resized s w h hr, faceTracking_resized_eq_false_iff]
    exact ⟨rfl, rfl⟩

/-! ## Centred detections -/

theorem center_x_fin (p : Prediction) (vw : ℕ) (hvw : 0 < vw) :
    center_x p vw =
      .fin ((p.boundingBox.topLeft.1 + p.boundingBox.bottomRight.1) / vw - 1) := by
  simp only [center_x, Val.div_fin_natCast _ _ hvw, Val.sub_fin]

theorem center_y_fin (p : Prediction) (vh : ℕ) (hvh : 0 < vh) :
    center_y p vh =
      .fin ((p.boundingBox.topLeft.2 + p.boundingBox.bottomRight.2) / vh - 1) := by
  simp only [center_y, Val.div_fin_natCast _ _ hvh, Val.sub_fin]

theorem faceTracking_resume_half (s : State) (vw vh : ℕ) (ps : List Prediction) :
    (faceTracking_resume s vw vh (.ok ps)).half_width = s.half_width ∧
    (faceTracking_resume s vw vh (.ok ps)).half_height = s.half_height := by
  simp only [faceTracking_resume]
  cases ps <;> constructor <;> split <;> rfl

theorem faceTracking_frustum_resume (s : State) (vw vh : ℕ) (p : Prediction)
    (rest : List Prediction) :
    faceTracking_frustum (faceTracking_resume s vw vh (.ok (p :: rest))) =
      { left := Val.sub (Val.neg s.half_width) (Val.mul (Val.neg (center_x p vw)) s.half_width)
        right := Val.sub s.half_width (Val.mul (Val.neg (center_x p vw)) s.half_width)
        bottom :=
          Val.sub (Val.neg s.half_height) (Val.mul (Val.neg (center_y p vh)) s.half_height)
        top := Val.sub s.half_height (Val.mul (Val.neg (center_y p vh)) s.half_height)
        near := .fin (5/2)
        far := .fin 5 } := by
  have hh := faceTracking_resume_half s vw vh (p :: rest)
  have hc := faceTracking_resume_camera_ok s vw vh (p :: rest)
  simp only [faceTracking_frustum, hh.1, hh.2, hc]
  rfl

/-- Claim C4, as amended: with positive frame dimensions and any finite extent
`(hw, hh)`, a detection whose box is centred on the frame centre has
`center_x = center_y = 0`, moves the camera to `(0, 0, 2.5)` and yields the
frustum bounds `-hw, hw, -hh, hh, 2.5, 5`; the box `(0,0)`-`(vw,vh)` covering
the frame is such a detection; and on the first frame of a session with canvas
800×400, video frame 640×480 and box (220,140)-(420,340) the position is
`(0, 0, 2.5)` and the bounds are `-0.5, 0.5, -0.25, 0.25, 2.5, 5`. -/
theorem faceTracking_centred_detection (s : State) (vw vh : ℕ) (hw hh : ℚ)
    (p : Prediction) (rest : List Prediction) (cam : Camera)
    (room : Option Vec3) (status : Option String)
    (hvw : 0 < vw) (hvh : 0 < vh)
    (hhw : s.half_width = .fin hw) (hhh : s.half_height = .fin hh) :
    (p.boundingBox.topLeft.1 + p.boundingBox.bottomRight.1 = vw →
      p.boundingBox.topLeft.2 + p.boundingBox.bottomRight.2 = vh →
        center_x p vw = .fin 0 ∧ center_y p vh = .fin 0 ∧
        (faceTracking_resume s vw vh (.ok (p :: rest))).virtual_camera.position =
          ⟨.fin 0, .fin 0, .fin (5/2)⟩ ∧
        faceTracking_frustum (faceTracking_resume s vw vh (.ok (p :: rest))) =
          ⟨.fin (-hw), .fin hw, .fin (-hh), .fin hh, .fin (5/2), .fin 5⟩ ∧
        (faceTracking_resume s vw vh (.ok (p :: rest))).virtual_camera.projectionMatrix =
          perspectiveOffCenter (.fin (-hw)) (.fin hw) (.fin (-hh)) (.fin hh)
            (.fin (5/2)) (.fin 5)) ∧
    (center_x (boxPrediction 0 0 vw vh) vw = .fin 0 ∧
      center_y (boxPrediction 0 0 vw vh) vh = .fin 0 ∧
      (faceTracking_resume s vw vh
          (.ok (boxPrediction 0 0 vw vh :: rest))).virtual_camera.position =
        ⟨.fin 0, .fin 0, .fin (5/2)⟩) ∧
    ((faceTracking (trackingState cam room status)
          ⟨800, 400, 640, 480, .ok [boxPrediction 220 140 420 340]⟩).virtual_camera.position =
        ⟨.fin 0, .fin 0, .fin (5/2)⟩ ∧
      faceTracking_frustum (faceTracking (trackingState cam room status)
          ⟨800, 400, 640, 480, .ok [boxPrediction 220 140 420 340]⟩) =
        ⟨.fin (-1/2), .fin (1/2), .fin (-1/4), .fin (1/4), .fin (5/2), .fin 5⟩) := by
  have key : ∀ (t : State) (a b : ℚ) (w h : ℕ) (q : Prediction) (l : List Prediction),
      0 < w → 0 < h → t.half_width = .fin a → t.half_height = .fin b →
      q.boundingBox.topLeft.1 + q.boundingBox.bottomRight.1 = w →
      q.boundingBox.topLeft.2 + q.boundingBox.bottomRight.2 = h →
        center_x q w = .fin 0 ∧ center_y q h = .fin 0 ∧
        (faceTracking_resume t w h (.ok (q :: l))).virtual_camera.position =
          ⟨.fin 0, .fin 0, .fin (5/2)⟩ ∧
        faceTracking_frustum (faceTracking_resume t w h (.ok (q :: l))) =
          ⟨.fin (-a), .fin a, .fin (-b), .fin b, .fin (5/2), .fin 5⟩ ∧
        (faceTracking_resume t w h (.ok (q :: l))).virtual_camera.projectionMatrix =
          perspectiveOffCenter (.fin (-a)) (.fin a) (.fin (-b)) (.fin b)
            (.fin (5/2)) (.fin 5) := by
    intro t a b w h q l hw0 hh0 ha hb hx hy
    have hwq : (w : ℚ) ≠ 0 := by exact_mod_cast hw0.ne'
    have hhq : (h : ℚ) ≠ 0 := by exact_mod_cast hh0.ne'
    have hcx : center_x q w = .fin 0 := by
      rw [center_x_fin q w hw0, hx, div_self hwq, sub_self]
    have hcy : center_y q h = .fin 0 := by
      rw [center_y_fin q h hh0, hy, div_self hhq, sub_self]
    have hfr := faceTracking_frustum_resume t w h q l
    have hcam := faceTracking_resume_camera_ok t w h (q :: l)
    refine ⟨hcx, hcy, ?_, ?_, ?_⟩
    · rw [hcam]
      simp [faceTracking_detected, hcx, hcy, ha, hb, Val.neg_fin, Val.mul_fin]
    · rw [hfr]
      simp [hcx, hcy, ha, hb, Val.neg_fin, Val.mul_fin, Val.sub_fin]
    · rw [hcam]
      simp [faceTracking_detected, faceTracking_frustum, hcx, hcy, ha, hb, Val.neg_fin,
        Val.mul_fin, Val.sub_fin]
  refine ⟨fun hx hy => key s hw hh vw vh p rest hvw hvh hhw hhh hx hy, ?_, ?_⟩
  · have h := key s hw hh vw vh (boxPrediction 0 0 vw vh) rest hvw hvh hhw hhh
      (by simp [boxPrediction]) (by simp [boxPrediction])
    exact ⟨h.1, h.2.1, h.2.2.1⟩
  · have hg : faceTracking_guard (trackingState cam room status) = false := rfl
    have hr : faceTracking_resized (trackingState cam room status) 800 400 = true := rfl
    rw [faceTracking_of_guard _ _ hg]
    have h := key
      { faceTracking_extent (trackingState cam room status) 800 400 with
        detector_calls :=
          (faceTracking_extent (trackingState cam room status) 800 400).detector_calls + 1 }
      (1/2) (1/4) 640 480 (boxPrediction 220 140 420 340) []
      (by norm_num) (by norm_num)
      (by rw [faceTracking_extent_of_resized _ _ _ hr])
      (by
        rw [faceTracking_extent_of_resized _ _ _ hr]
        show Val.div (Val.div (.fin ((400 : ℕ) : ℚ)) (.fin ((800 : ℕ) : ℚ))) (.fin 2) = _
        rw [Val.div_fin _ _ (by norm_num), Val.div_fin _ _ (by norm_num)]
        norm_num)
      (by norm_num [boxPrediction]) (by norm_num [boxPrediction])
    refine ⟨h.2.2.1, ?_⟩
    rw [h.2.2.2.1]
    norm_num

/-- Claim C4, as amended, on the extent derived from a canvas of 800×400 (`hw = 1/2`,
`hh = 1/4`), video frame 640×480, box (220,140)-(420,340). -/
theorem faceTracking_centred_detection_witness :
    center_x (boxPrediction 220 140 420 340) 640 = .fin 0 ∧
    center_y (boxPrediction 220 140 420 340) 480 = .fin 0 ∧
    (faceTracking_resume (faceTracking_extent (trackingState originCamera none none) 800 400)
        640 480 (.ok [boxPrediction 220 140 420 340])).virtual_camera.position =
      ⟨.fin 0, .fin 0, .fin (5/2)⟩ ∧
    faceTracking_frustum
        (faceTracking_resume (faceTracking_extent (trackingState originCamera none none) 800 400)
          640 480 (.ok [boxPrediction 220 140 420 340])) =
      ⟨.fin (-(1/2)), .fin (1/2), .fin (-(1/4)), .fin (1/4), .fin (5/2), .fin 5⟩ ∧
    (faceTracking_resume (faceTracking_extent (trackingState originCamera none none) 800 400)
        640 480 (.ok [boxPrediction 220 140 420 340])).virtual_camera.projectionMatrix =
      perspectiveOffCenter (.fin (-(1/2))) (.fin (1/2)) (.fin (-(1/4))) (.fin (1/4))
        (.fin (5/2)) (.fin 5) :=
  (faceTracking_centred_detection
    (faceTracking_extent (trackingState originCamera none none) 800 400)
    640 480 (1/2) (1/4) (boxPrediction 220 140 420 340) [] originCamera none none
    (by norm_num) (by norm_num)
    (by rw [faceTracking_extent_of_resized (trackingState originCamera none none) 800 400 rfl])
    (by
      rw [faceTracking_extent_of_resized (trackingState originCamera none none) 800 400 rfl]
      show Val.div (Val.div (.fin ((400 : ℕ) : ℚ)) (.fin ((800 : ℕ) : ℚ))) (.fin 2) = _
      rw [Val.div_fin _ _ (by norm_num), Val.div_fin _ _ (by norm_num)]
      norm_num)).1
    (by norm_num [boxPrediction]) (by norm_num [boxPrediction])

/-- Claim C4 fails as stated: the extent need not be finite. On the first frame
of a session with a canvas of 0×400 the viewport-extent step sets
`half_height` to `Infinity`; with a video frame of 640×480 the box
(220,140)-(420,340) is centred on the frame centre, `center_y` is `0`, and
`position.y = -0 * Infinity` is `NaN`, not `0`; the bounds `bottom` and `top`
are `NaN`, not `-half_height` and `half_height`. -/
theorem faceTracking_centred_detection_nan_on_zero_width_canvas :
    ((boxPrediction 220 140 420 340).boundingBox.topLeft.1 +
        (boxPrediction 220 140 420 340).boundingBox.bottomRight.1 = ((640 : ℕ) : ℚ) ∧
      (boxPrediction 220 140 420 340).boundingBox.topLeft.2 +
        (boxPrediction 220 140 420 340).boundingBox.bottomRight.2 = ((480 : ℕ) : ℚ)) ∧
    (faceTracking_extent (trackingState originCamera none none) 0 400).half_width =
      .fin (1/2) ∧
    (faceTracking_extent (trackingState originCamera none none) 0 400).half_height =
      .posInf ∧
    center_y (boxPrediction 220 140 420 340) 480 = .fin 0 ∧
    (faceTracking (trackingState originCamera none none)
        ⟨0, 400, 640, 480, .ok [boxPrediction 220 140 420 340]⟩).virtual_camera.position =
      ⟨.fin 0, .nan, .fin (5/2)⟩ ∧
    faceTracking_frustum (faceTracking (trackingState originCamera none none)
        ⟨0, 400, 640, 480, .ok [boxPrediction 220 140 420 340]⟩) =
      ⟨.fin (-1/2), .fin (1/2), .nan, .nan, .fin (5/2), .fin 5⟩ := by
  have hext : faceTracking_extent (trackingState originCamera none none) 0 400 =
      { trackingState originCamera none none with
        screen_width := .fin 0
        screen_height := .fin 400
        half_width := .fin (1/2)
        half_height := .posInf } := by
    rw [faceTracking_extent_of_resized (trackingState originCamera none none) 0 400 rfl]
    norm_num [trackingState, moduleState, Val.div]
  have hcx : center_x (boxPrediction 220 140 420 340) 640 = .fin 0 := by
    rw [center_x_fin _ _ (by norm_num)]
    norm_num [boxPrediction]
  have hcy : center_y (boxPrediction 220 140 420 340) 480 = .fin 0 := by
    rw [center_y_fin _ _ (by norm_num)]
    norm_num [boxPrediction]
  refine ⟨⟨by norm_num [boxPrediction], by norm_num [boxPrediction]⟩, by rw [hext],
    by rw [hext], hcy, ?_, ?_⟩
  · rw [faceTracking_of_guard (trackingState originCamera none none) _ rfl,
      faceTracking_resume_camera_ok]
    simp only [faceTracking_detected, hext, hcx, hcy]
    norm_num [Val.mul, Val.neg, Val.infTimes]
  · rw [faceTracking_of_guard (trackingState originCamera none none) _ rfl,
      faceTracking_frustum_resume]
    simp only [hext, hcx, hcy]
    norm_num [Val.mul, Val.neg, Val.sub, Val.add, Val.infTimes]

/-! ## Direction of the camera offset -/

theorem derived_half_height (w h : ℕ) (hh : 0 < h) :
    Val.div (Val.div (.fin h) (.fin w)) (.fin 2) =
      if w = 0 then .posInf else .fin ((h : ℚ) / w / 2) := by
  have hq : (0 : ℚ) < h := by exact_mod_cast hh
  by_cases hw : w = 0
  · subst hw
    simp [Val.div, hq.ne', hq]
  · have hwq : (w : ℚ) ≠ 0 := by exact_mod_cast hw
    simp [Val.div, hwq, hw]

theorem derived_half_height_cases (w h : ℕ) (hh : 0 < h) :
    Val.div (Val.div (.fin h) (.fin w)) (.fin 2) = .posInf ∨
      ∃ q : ℚ, 0 < q ∧ Val.div (Val.div (.fin h) (.fin w)) (.fin 2) = .fin q := by
  rw [derived_half_height w h hh]
  by_cases hw : w = 0
  · left
    simp [hw]
  · right
    refine ⟨(h : ℚ) / w / 2, ?_, by simp [hw]⟩
    have hq : (0 : ℚ) < h := by exact_mod_cast hh
    have hwq : (0 : ℚ) < w := by exact_mod_cast Nat.pos_of_ne_zero hw
    positivity

theorem faceTracking_position_x (s : State) (vw vh : ℕ) (p : Prediction)
    (rest : List Prediction) :
    (faceTracking_resume s vw vh (.ok (p :: rest))).virtual_camera.position.x =
      Val.mul (Val.neg (center_x p vw)) s.half_width := by
  rw [faceTracking_resume_camera_ok]
  rfl

theorem faceTracking_position_y (s : State) (vw vh : ℕ) (p : Prediction)
    (rest : List Prediction) :
    (faceTracking_resume s vw vh (.ok (p :: rest))).virtual_camera.position.y =
      Val.mul (Val.neg (center_y p vh)) s.half_height := by
  rw [faceTracking_resume_camera_ok]
  rfl

theorem Val.lt_zero_mul_pos (a : ℚ) (v : Val) (ha : 0 < a)
    (hv : v = .posInf ∨ ∃ q : ℚ, 0 < q ∧ v = .fin q) :
    Val.lt (.fin 0) (Val.mul (.fin a) v) = true := by
  rcases hv with rfl | ⟨q, hq, rfl⟩
  · simp [Val.mul, Val.infTimes, ha.ne', ha, Val.lt]
  · simp [Val.mul, Val.lt, mul_pos ha hq]

theorem Val.mul_neg_lt_zero (a : ℚ) (v : Val) (ha : a < 0)
    (hv : v = .posInf ∨ ∃ q : ℚ, 0 < q ∧ v = .fin q) :
    Val.lt (Val.mul (.fin a) v) (.fin 0) = true := by
  rcases hv with rfl | ⟨q, hq, rfl⟩
  · simp [Val.mul, Val.infTimes, ha.ne, not_lt.mpr ha.le, Val.lt]
  · simp [Val.mul, Val.lt, mul_neg_of_neg_of_pos ha hq]

/-- Claim C5, as amended: with positive frame dimensions and the extent that
the viewport-extent step derives from a canvas size, a box whose centre lies at
least half a pixel left of the frame centre
(`topLeft[0] + bottomRight[0] <= videoWidth - 1`) gives `position.x > 0` and
one whose centre lies at least half a pixel right of it gives
`position.x < 0`, for every canvas size; a box whose centre lies at least half
a pixel above the frame centre gives `position.y > 0` and one whose centre lies
at least half a pixel below it gives `position.y < 0` whenever the canvas
height is positive. The margin of half a pixel keeps the rounded sum of
lines 267-268 on the same side of the frame size as the exact sum: a centre
closer to the middle than the rounding error of that sum is computed as
exactly centred. -/
theorem faceTracking_position_opposes_face (s0 s : State) (cw ch vw vh : ℕ)
    (p : Prediction) (rest : List Prediction)
    (hvw : 0 < vw) (hvh : 0 < vh)
    (hr : faceTracking_resized s0 cw ch = true)
    (hhw : s.half_width = (faceTracking_extent s0 cw ch).half_width)
    (hhh : s.half_height = (faceTracking_extent s0 cw ch).half_height) :
    (p.boundingBox.topLeft.1 + p.boundingBox.bottomRight.1 ≤ (vw : ℚ) - 1 →
      Val.lt (.fin 0)
        (faceTracking_resume s vw vh (.ok (p :: rest))).virtual_camera.position.x = true) ∧
    ((vw : ℚ) + 1 ≤ p.boundingBox.topLeft.1 + p.boundingBox.bottomRight.1 →
      Val.lt (faceTracking_resume s vw vh (.ok (p :: rest))).virtual_camera.position.x
        (.fin 0) = true) ∧
    (0 < ch →
      (p.boundingBox.topLeft.2 + p.boundingBox.bottomRight.2 ≤ (vh : ℚ) - 1 →
        Val.lt (.fin 0)
          (faceTracking_resume s vw vh (.ok (p :: rest))).virtual_camera.position.y = true) ∧
      ((vh : ℚ) + 1 ≤ p.boundingBox.topLeft.2 + p.boundingBox.bottomRight.2 →
        Val.lt (faceTracking_resume s vw vh (.ok (p :: rest))).virtual_camera.position.y
          (.fin 0) = true)) := by
  have hwq : (0 : ℚ) < vw := by exact_mod_cast hvw
  have hhq : (0 : ℚ) < vh := by exact_mod_cast hvh
  rw [faceTracking_extent_of_resized _ _ _ hr] at hhw hhh
  simp only at hhw hhh
  rw [faceTracking_position_x, faceTracking_position_y, hhw, hhh, center_x_fin p vw hvw,
    center_y_fin p vh hvh, Val.neg_fin, Val.neg_fin]
  have hhalf : (Val.fin (1/2) = .posInf ∨ ∃ q : ℚ, 0 < q ∧ Val.fin (1/2) = .fin q) :=
    Or.inr ⟨1/2, by norm_num, rfl⟩
  refine ⟨fun h => ?_, fun h => ?_, fun hch => ⟨fun h => ?_, fun h => ?_⟩⟩
  · apply Val.lt_zero_mul_pos _ _ _ hhalf
    have : (p.boundingBox.topLeft.1 + p.boundingBox.bottomRight.1) / vw < 1 := by
      rw [div_lt_one hwq]
      linarith
    linarith
  · apply Val.mul_neg_lt_zero _ _ _ hhalf
    have : 1 < (p.boundingBox.topLeft.1 + p.boundingBox.bottomRight.1) / vw := by
      rw [one_lt_div hwq]
      linarith
    linarith
  · apply Val.lt_zero_mul_pos _ _ _ (derived_half_height_cases cw ch hch)
    have : (p.boundingBox.topLeft.2 + p.boundingBox.bottomRight.2) / vh < 1 := by
      rw [div_lt_one hhq]
      linarith
    linarith
  · apply Val.mul_neg_lt_zero _ _ _ (derived_half_height_cases cw ch hch)
    have : 1 < (p.boundingBox.topLeft.2 + p.boundingBox.bottomRight.2) / vh := by
      rw [one_lt_div hhq]
      linarith
    linarith

/-- Claim C5, as amended, on the extent derived from a canvas of 800×400 with a
video frame of 640×480 and the box (0,0)-(100,100), centred at (50, 50) in the
upper left quarter: both `position.x` and `position.y` are positive. -/
theorem faceTracking_position_opposes_face_witness :
    Val.lt (.fin 0)
      (faceTracking_resume (faceTracking_extent (trackingState originCamera none none) 800 400)
        640 480 (.ok [boxPrediction 0 0 100 100])).virtual_camera.position.x = true ∧
    Val.lt (.fin 0)
      (faceTracking_resume (faceTracking_extent (trackingState originCamera none none) 800 400)
        640 480 (.ok [boxPrediction 0 0 100 100])).virtual_camera.position.y = true :=
  ⟨(faceTracking_position_opposes_face (trackingState originCamera none none)
      (faceTracking_extent (trackingState originCamera none none) 800 400)
      800 400 640 480 (boxPrediction 0 0 100 100) [] (by norm_num) (by norm_num)
      rfl rfl rfl).1 (by norm_num [boxPrediction]),
   ((faceTracking_position_opposes_face (trackingState originCamera none none)
      (faceTracking_extent (trackingState originCamera none none) 800 400)
      800 400 640 480 (boxPrediction 0 0 100 100) [] (by norm_num) (by norm_num)
      rfl rfl rfl).2.2 (by norm_num)).1 (by norm_num [boxPrediction])⟩

/-- Claim C5 fails as stated: on the first frame of a session with a canvas of
800×0 and a video frame of 640×480, the box (0,0)-(100,100) is centred in the
upper half of the frame, yet `position.y` is `0`, not positive. -/
theorem faceTracking_position_y_zero_on_flat_canvas :
    ((boxPrediction 0 0 100 100).boundingBox.topLeft.2 +
        (boxPrediction 0 0 100 100).boundingBox.bottomRight.2) / 2 < ((480 : ℕ) : ℚ) / 2 ∧
    (faceTracking (trackingState originCamera none none)
        ⟨800, 0, 640, 480, .ok [boxPrediction 0 0 100 100]⟩).virtual_camera.position.y =
      .fin 0 ∧
    Val.lt (.fin 0)
      (faceTracking (trackingState originCamera none none)
        ⟨800, 0, 640, 480, .ok [boxPrediction 0 0 100 100]⟩).virtual_camera.position.y =
      false := by
  have hy : (faceTracking (trackingState originCamera none none)
        ⟨800, 0, 640, 480, .ok [boxPrediction 0 0 100 100]⟩).virtual_camera.position.y =
      .fin 0 := by
    rw [faceTracking_of_guard (trackingState originCamera none none) _ rfl,
      faceTracking_position_y]
    simp only [faceTracking_extent_of_resized (trackingState originCamera none none) 800 0 rfl]
    rw [center_y_fin _ _ (by norm_num)]
    norm_num [Val.div, Val.mul, Val.neg]
  refine ⟨by norm_num [boxPrediction], hy, ?_⟩
  rw [hy]
  simp [Val.lt]

/-! ## Degenerate frustum bounds -/

theorem frustum_axis_nondegenerate (a : ℚ) (v : Val)
    (hv : v = .posInf ∨ ∃ q : ℚ, 0 < q ∧ v = .fin q) :
    Val.looseNe (Val.sub v (Val.mul (.fin a) v))
        (Val.sub (Val.neg v) (Val.mul (.fin a) v)) = true ∧
    Val.sub (Val.sub v (Val.mul (.fin a) v))
        (Val.sub (Val.neg v) (Val.mul (.fin a) v)) ≠ .fin 0 := by
  rcases hv with rfl | ⟨q, hq, rfl⟩
  · simp only [Val.mul, Val.infTimes]
    split_ifs <;> simp [Val.sub, Val.add, Val.neg, Val.looseNe]
  · simp only [Val.mul_fin, Val.neg_fin, Val.sub_fin, Val.looseNe]
    constructor
    · simp only [decide_eq_true_eq]
      intro h
      linarith
    · intro h
      injection h with h
      linarith

theorem faceTracking_projection_of_frustum (s : State) (vw vh : ℕ) (p : Prediction)
    (rest : List Prediction) :
    (faceTracking_resume s vw vh (.ok (p :: rest))).virtual_camera.projectionMatrix =
      perspectiveOffCenter
        (faceTracking_frustum (faceTracking_resume s vw vh (.ok (p :: rest)))).left
        (faceTracking_frustum (faceTracking_resume s vw vh (.ok (p :: rest)))).right
        (faceTracking_frustum (faceTracking_resume s vw vh (.ok (p :: rest)))).bottom
        (faceTracking_frustum (faceTracking_resume s vw vh (.ok (p :: rest)))).top
        (faceTracking_frustum (faceTracking_resume s vw vh (.ok (p :: rest)))).near
        (faceTracking_frustum (faceTracking_resume s vw vh (.ok (p :: rest)))).far := by
  rw [faceTracking_frustum_resume, faceTracking_resume_camera_ok]
  rfl

/-- Claim C6, as amended: with positive frame dimensions, a bounding box whose
coordinate sums `topLeft[0] + bottomRight[0]` and `topLeft[1] + bottomRight[1]`
are at most `2^50` in magnitude, and the extent that the viewport-extent step
derives from a canvas size of positive height, the bounds passed to
`perspectiveOffCenter` satisfy `right != left`, `top != bottom` and
`far != near`, and none of the three divisors `right - left`, `top - bottom`,
`far - near` is zero; when the canvas width is positive as well the divisors
are finite and positive, `far - near` being `2.5`. The bound on the box keeps
the camera offset small enough that the subtractions of lines 275-276 do not
round `half_width` and `half_height` away: in exact arithmetic it is not
needed, in double precision a larger offset makes `left` equal to `right`. -/
theorem faceTracking_frustum_nondegenerate (s0 s : State) (cw ch vw vh : ℕ)
    (p : Prediction) (rest : List Prediction)
    (hvw : 0 < vw) (hvh : 0 < vh) (hch : 0 < ch)
    (_hbx : |p.boundingBox.topLeft.1 + p.boundingBox.bottomRight.1| ≤ 2 ^ 50)
    (_hby : |p.boundingBox.topLeft.2 + p.boundingBox.bottomRight.2| ≤ 2 ^ 50)
    (hr : faceTracking_resized s0 cw ch = true)
    (hhw : s.half_width = (faceTracking_extent s0 cw ch).half_width)
    (hhh : s.half_height = (faceTracking_extent s0 cw ch).half_height) :
    (faceTracking_resume s vw vh (.ok (p :: rest))).virtual_camera.projectionMatrix =
      perspectiveOffCenter
        (faceTracking_frustum (faceTracking_resume s vw vh (.ok (p :: rest)))).left
        (faceTracking_frustum (faceTracking_resume s vw vh (.ok (p :: rest)))).right
        (faceTracking_frustum (faceTracking_resume s vw vh (.ok (p :: rest)))).bottom
        (faceTracking_frustum (faceTracking_resume s vw vh (.ok (p :: rest)))).top
        (faceTracking_frustum (faceTracking_resume s vw vh (.ok (p :: rest)))).near
        (faceTracking_frustum (faceTracking_resume s vw vh (.ok (p :: rest)))).far ∧
    Val.looseNe (faceTracking_frustum (faceTracking_resume s vw vh (.ok (p :: rest)))).right
      (faceTracking_frustum (faceTracking_resume s vw vh (.ok (p :: rest)))).left = true ∧
    Val.looseNe (faceTracking_frustum (faceTracking_resume s vw vh (.ok (p :: rest)))).top
      (faceTracking_frustum (faceTracking_resume s vw vh (.ok (p :: rest)))).bottom = true ∧
    Val.looseNe (faceTracking_frustum (faceTracking_resume s vw vh (.ok (p :: rest)))).far
      (faceTracking_frustum (faceTracking_resume s vw vh (.ok (p :: rest)))).near = true ∧
    Val.sub (faceTracking_frustum (faceTracking_resume s vw vh (.ok (p :: rest)))).right
      (faceTracking_frustum (faceTracking_resume s vw vh (.ok (p :: rest)))).left ≠ .fin 0 ∧
    Val.sub (faceTracking_frustum (faceTracking_resume s vw vh (.ok (p :: rest)))).top
      (faceTracking_frustum (faceTracking_resume s vw vh (.ok (p :: rest)))).bottom ≠ .fin 0 ∧
    Val.sub (faceTracking_frustum (faceTracking_resume s vw vh (.ok (p :: rest)))).far
      (faceTracking_frustum (faceTracking_resume s vw vh (.ok (p :: rest)))).near ≠ .fin 0 ∧
    (0 < cw →
      (∃ q : ℚ, 0 < q ∧
        Val.sub (faceTracking_frustum (faceTracking_resume s vw vh (.ok (p :: rest)))).right
          (faceTracking_frustum (faceTracking_resume s vw vh (.ok (p :: rest)))).left =
            .fin q) ∧
      (∃ q : ℚ, 0 < q ∧
        Val.sub (faceTracking_frustum (faceTracking_resume s vw vh (.ok (p :: rest)))).top
          (faceTracking_frustum (faceTracking_resume s vw vh (.ok (p :: rest)))).bottom =
            .fin q) ∧
      Val.sub (faceTracking_frustum (faceTracking_resume s vw vh (.ok (p :: rest)))).far
        (faceTracking_frustum (faceTracking_resume s vw vh (.ok (p :: rest)))).near =
          .fin (5/2)) := by
  refine ⟨faceTracking_projection_of_frustum s vw vh p rest, ?_⟩
  rw [faceTracking_extent_of_resized _ _ _ hr] at hhw hhh
  simp only at hhw hhh
  rw [faceTracking_frustum_resume, hhw, hhh, center_x_fin p vw hvw, center_y_fin p vh hvh,
    Val.neg_fin, Val.neg_fin]
  simp only
  have hx := frustum_axis_nondegenerate
    (-((p.boundingBox.topLeft.1 + p.boundingBox.bottomRight.1) / vw - 1)) (.fin (1/2))
    (Or.inr ⟨1/2, by norm_num, rfl⟩)
  have hy := frustum_axis_nondegenerate
    (-((p.boundingBox.topLeft.2 + p.boundingBox.bottomRight.2) / vh - 1)) _
    (derived_half_height_cases cw ch hch)
  refine ⟨hx.1, hy.1, ?_, hx.2, hy.2, ?_, ?_⟩
  · norm_num [Val.looseNe]
  · rw [Val.sub_fin]
    intro h
    injection h with h
    norm_num at h
  · intro hcw
    have hcq : (0 : ℚ) < cw := by exact_mod_cast hcw
    have hhq : (0 : ℚ) < ch := by exact_mod_cast hch
    refine ⟨⟨1, one_pos, ?_⟩, ⟨(ch : ℚ) / cw, div_pos hhq hcq, ?_⟩, ?_⟩
    · simp only [Val.mul_fin, Val.neg_fin, Val.sub_fin]
      congr 1
      ring
    · rw [derived_half_height cw ch hch, if_neg hcw.ne']
      simp only [Val.mul_fin, Val.neg_fin, Val.sub_fin]
      congr 1
      ring
    · rw [Val.sub_fin]
      norm_num

/-- Claim C6, as amended, on the extent derived from a canvas of 800×400 with a
video frame of 640×480 and the box (0,0)-(100,100): `right != left`,
`top != bottom`, `far != near`, and `far - near` is `2.5`. -/
theorem faceTracking_frustum_nondegenerate_witness :
    Val.looseNe
        (faceTracking_frustum (faceTracking_resume
          (faceTracking_extent (trackingState originCamera none none) 800 400)
          640 480 (.ok [boxPrediction 0 0 100 100]))).right
        (faceTracking_frustum (faceTracking_resume
          (faceTracking_extent (trackingState originCamera none none) 800 400)
          640 480 (.ok [boxPrediction 0 0 100 100]))).left = true ∧
    Val.looseNe
        (faceTracking_frustum (faceTracking_resume
          (faceTracking_extent (trackingState originCamera none none) 800 400)
          640 480 (.ok [boxPrediction 0 0 100 100]))).top
        (faceTracking_frustum (faceTracking_resume
          (faceTracking_extent (trackingState originCamera none none) 800 400)
          640 480 (.ok [boxPrediction 0 0 100 100]))).bottom = true ∧
    Val.looseNe
        (faceTracking_frustum (faceTracking_resume
          (faceTracking_extent (trackingState originCamera none none) 800 400)
          640 480 (.ok [boxPrediction 0 0 100 100]))).far
        (faceTracking_frustum (faceTracking_resume
          (faceTracking_extent (trackingState originCamera none none) 800 400)
          640 480 (.ok [boxPrediction 0 0 100 100]))).near = true ∧
    Val.sub
        (faceTracking_frustum (faceTracking_resume
          (faceTracking_extent (trackingState originCamera none none) 800 400)
          640 480 (.ok [boxPrediction 0 0 100 100]))).far
        (faceTracking_frustum (faceTracking_resume
          (faceTracking_extent (trackingState originCamera none none) 800 400)
          640 480 (.ok [boxPrediction 0 0 100 100]))).near = .fin (5/2) :=
  ⟨(faceTracking_frustum_nondegenerate (trackingState originCamera none none)
      (faceTracking_extent (trackingState originCamera none none) 800 400)
      800 400 640 480 (boxPrediction 0 0 100 100) [] (by norm_num) (by norm_num) (by norm_num)
      (by norm_num [boxPrediction]) (by norm_num [boxPrediction]) rfl rfl rfl).2.1,
   (faceTracking_frustum_nondegenerate (trackingState originCamera none none)
      (faceTracking_extent (trackingState originCamera none none) 800 400)
      800 400 640 480 (boxPrediction 0 0 100 100) [] (by norm_num) (by norm_num) (by norm_num)
      (by norm_num [boxPrediction]) (by norm_num [boxPrediction]) rfl rfl rfl).2.2.1,
   (faceTracking_frustum_nondegenerate (trackingState originCamera none none)
      (faceTracking_extent (trackingState originCamera none none) 800 400)
      800 400 640 480 (boxPrediction 0 0 100 100) [] (by norm_num) (by norm_num) (by norm_num)
      (by norm_num [boxPrediction]) (by norm_num [boxPrediction]) rfl rfl rfl).2.2.2.1,
   ((faceTracking_frustum_nondegenerate (trackingState originCamera none none)
      (faceTracking_extent (trackingState originCamera none none) 800 400)
      800 400 640 480 (boxPrediction 0 0 100 100) [] (by norm_num) (by norm_num) (by norm_num)
      (by norm_num [boxPrediction]) (by norm_num [boxPrediction]) rfl rfl
      rfl).2.2.2.2.2.2.2 (by norm_num)).2.2⟩

/-- Claim C6 fails as stated. On the first frame of a session with a canvas of
800×0, a video frame of 640×480 and the box (0,0)-(100,100), the bounds are
`-59/64, 5/64, 0, 0, 2.5, 5`: `top` equals `bottom`, the divisor
`top - bottom` is zero, and the matrix entries `y` and `b` are `Infinity` and
`NaN`. With a canvas of 800×400 and a video frame of width 0, `left` and
`right` are both `Infinity`. -/
theorem faceTracking_frustum_degenerate :
    (faceTracking_frustum (faceTracking (trackingState originCamera none none)
        ⟨800, 0, 640, 480, .ok [boxPrediction 0 0 100 100]⟩) =
      ⟨.fin (-59/64), .fin (5/64), .fin 0, .fin 0, .fin (5/2), .fin 5⟩ ∧
    Val.looseNe
        (faceTracking_frustum (faceTracking (trackingState originCamera none none)
          ⟨800, 0, 640, 480, .ok [boxPrediction 0 0 100 100]⟩)).top
        (faceTracking_frustum (faceTracking (trackingState originCamera none none)
          ⟨800, 0, 640, 480, .ok [boxPrediction 0 0 100 100]⟩)).bottom = false ∧
    Val.sub
        (faceTracking_frustum (faceTracking (trackingState originCamera none none)
          ⟨800, 0, 640, 480, .ok [boxPrediction 0 0 100 100]⟩)).top
        (faceTracking_frustum (faceTracking (trackingState originCamera none none)
          ⟨800, 0, 640, 480, .ok [boxPrediction 0 0 100 100]⟩)).bottom = .fin 0 ∧
    (faceTracking (trackingState originCamera none none)
        ⟨800, 0, 640, 480, .ok [boxPrediction 0 0 100 100]⟩).virtual_camera.projectionMatrix.n22
      = .posInf ∧
    (faceTracking (trackingState originCamera none none)
        ⟨800, 0, 640, 480, .ok [boxPrediction 0 0 100 100]⟩).virtual_camera.projectionMatrix.n23
      = .nan) ∧
    (faceTracking_frustum (faceTracking (trackingState originCamera none none)
        ⟨800, 400, 0, 480, .ok [boxPrediction 0 0 100 100]⟩) =
      ⟨.posInf, .posInf, .fin (-43/96), .fin (5/96), .fin (5/2), .fin 5⟩ ∧
    Val.looseNe
        (faceTracking_frustum (faceTracking (trackingState originCamera none none)
          ⟨800, 400, 0, 480, .ok [boxPrediction 0 0 100 100]⟩)).right
        (faceTracking_frustum (faceTracking (trackingState originCamera none none)
          ⟨800, 400, 0, 480, .ok [boxPrediction 0 0 100 100]⟩)).left = false) := by
  have hf : faceTracking_frustum (faceTracking (trackingState originCamera none none)
        ⟨800, 0, 640, 480, .ok [boxPrediction 0 0 100 100]⟩) =
      ⟨.fin (-59/64), .fin (5/64), .fin 0, .fin 0, .fin (5/2), .fin 5⟩ := by
    rw [faceTracking_of_guard (trackingState originCamera none none) _ rfl,
      faceTracking_frustum_resume]
    simp only [faceTracking_extent_of_resized (trackingState originCamera none none) 800 0 rfl]
    rw [center_x_fin _ _ (by norm_num), center_y_fin _ _ (by norm_num)]
    norm_num [Val.div, Val.mul, Val.neg, Val.sub, Val.add, boxPrediction]
  have hm : (faceTracking (trackingState originCamera none none)
        ⟨800, 0, 640, 480, .ok [boxPrediction 0 0 100 100]⟩).virtual_camera.projectionMatrix =
      perspectiveOffCenter (.fin (-59/64)) (.fin (5/64)) (.fin 0) (.fin 0) (.fin (5/2))
        (.fin 5) := by
    have h := faceTracking_projection_of_frustum
      { faceTracking_extent (trackingState originCamera none none) 800 0 with
        detector_calls :=
          (faceTracking_extent (trackingState originCamera none none) 800 0).detector_calls + 1 }
      640 480 (boxPrediction 0 0 100 100) []
    rw [faceTracking_of_guard (trackingState originCamera none none) _ rfl] at hf
    rw [faceTracking_of_guard (trackingState originCamera none none) _ rfl]
    simp only [hf] at h
    exact h
  have hg : faceTracking_frustum (faceTracking (trackingState originCamera none none)
        ⟨800, 400, 0, 480, .ok [boxPrediction 0 0 100 100]⟩) =
      ⟨.posInf, .posInf, .fin (-43/96), .fin (5/96), .fin (5/2), .fin 5⟩ := by
    rw [faceTracking_of_guard (trackingState originCamera none none) _ rfl,
      faceTracking_frustum_resume]
    simp only [faceTracking_extent_of_resized (trackingState originCamera none none) 800 400 rfl]
    rw [center_y_fin _ _ (by norm_num)]
    norm_num [center_x, Val.div, Val.mul, Val.neg, Val.sub, Val.add, Val.infTimes,
      boxPrediction]
  refine ⟨⟨hf, ?_, ?_, ?_, ?_⟩, hg, ?_⟩
  · rw [hf]
    simp [Val.looseNe]
  · rw [hf]
    simp [Val.sub_fin]
  · rw [hm]
    norm_num [perspectiveOffCenter, Matrix4.set, Val.div, Val.mul, Val.neg, Val.sub, Val.add]
  · rw [hm]
    norm_num [perspectiveOffCenter, Matrix4.set, Val.div, Val.mul, Val.neg, Val.sub, Val.add]
  · rw [hg]
    rfl

/-! ## Caching of the viewport extent -/

theorem extentRecomputations_replicate_of_not_resized (s : State) (w h : ℕ)
    (hr : faceTracking_resized s w h = false) (n : ℕ) :
    extentRecomputations s (List.replicate n (w, h)) = 0 := by
  induction n with
  | zero => rfl
  | succ n ih =>
      simp only [List.replicate_succ, extentRecomputations, hr,
        faceTracking_extent_of_not_resized s w h hr, ih]
      rfl

/-- Claim C8: when the canvas size differs from the cached size the
viewport-extent step stores the new size and sets `half_width = 0.5` and
`half_height = (height / width) / 2`; when the sizes are equal it leaves the
state unchanged. A second step with the same canvas size finds nothing to
recompute, and over any number of consecutive steps with one canvas size the
recomputation runs once if the size differed from the cached one at the
start, and never otherwise. -/
theorem faceTracking_extent_cache (s : State) (w h n : ℕ) :
    ((s.screen_width ≠ .fin w ∨ s.screen_height ≠ .fin h) →
      faceTracking_resized s w h = true ∧
      (faceTracking_extent s w h).screen_width = .fin w ∧
      (faceTracking_extent s w h).screen_height = .fin h ∧
      (faceTracking_extent s w h).half_width = .fin (1/2) ∧
      (faceTracking_extent s w h).half_height =
        Val.div (Val.div (.fin h) (.fin w)) (.fin 2) ∧
      (0 < w → (faceTracking_extent s w h).half_height = .fin ((h : ℚ) / w / 2))) ∧
    ((s.screen_width = .fin w ∧ s.screen_height = .fin h) →
      faceTracking_resized s w h = false ∧ faceTracking_extent s w h = s) ∧
    faceTracking_resized (faceTracking_extent s w h) w h = false ∧
    faceTracking_extent (faceTracking_extent s w h) w h = faceTracking_extent s w h ∧
    extentRecomputations s (List.replicate (n + 1) (w, h)) =
      (if faceTracking_resized s w h then 1 else 0) := by
  refine ⟨fun hne => ?_, fun heq => ?_, faceTracking_resized_extent s w h,
    faceTracking_extent_of_not_resized _ w h (faceTracking_resized_extent s w h), ?_⟩
  · have hr := (faceTracking_resized_iff s w h).mpr hne
    rw [faceTracking_extent_of_resized s w h hr]
    refine ⟨hr, rfl, rfl, rfl, rfl, fun hw => ?_⟩
    have hwq : (w : ℚ) ≠ 0 := by exact_mod_cast hw.ne'
    simp only [Val.div_fin _ _ hwq, Val.div_fin _ _ (two_ne_zero)]
  · have hr := (faceTracking_resized_eq_false_iff s w h).mpr heq
    exact ⟨hr, faceTracking_extent_of_not_resized s w h hr⟩
  · simp only [List.replicate_succ, extentRecomputations,
      extentRecomputations_replicate_of_not_resized _ w h (faceTracking_resized_extent s w h) n]
    rfl

/-- Claim C8 at the start of a session (nothing cached) with a canvas of
800×400, and on the state that this first step leaves. -/
theorem faceTracking_extent_cache_witness :
    (faceTracking_extent (trackingState originCamera none none) 800 400).half_width =
      .fin (1/2) ∧
    (faceTracking_extent (trackingState originCamera none none) 800 400).half_height =
      .fin (((400 : ℕ) : ℚ) / ((800 : ℕ) : ℚ) / 2) ∧
    faceTracking_extent (faceTracking_extent (trackingState originCamera none none) 800 400)
        800 400 =
      faceTracking_extent (trackingState originCamera none none) 800 400 :=
  ⟨((faceTracking_extent_cache (trackingState originCamera none none) 800 400 0).1
      (Or.inl (by simp [trackingState, moduleState]))).2.2.2.1,
   ((faceTracking_extent_cache (trackingState originCamera none none) 800 400 0).1
      (Or.inl (by simp [trackingState, moduleState]))).2.2.2.2.2 (by norm_num),
   ((faceTracking_extent_cache
      (faceTracking_extent (trackingState originCamera none none) 800 400) 800 400 0).2.1
      ⟨by rw [faceTracking_extent_of_resized (trackingState originCamera none none) 800 400 rfl],
       by rw [faceTracking_extent_of_resized
          (trackingState originCamera none none) 800 400 rfl]⟩).2⟩

/-- Claim C7, as amended: a canvas width of zero is not guarded. The
viewport-extent step skips the recomputation for a canvas of width 0 only when
the cached size is that same size; otherwise it stores the width 0, divides
the height by it and sets `half_width = 0.5` and `half_height` to the
non-finite quotient, `NaN` for height 0 and `Infinity` for a positive height. -/
theorem faceTracking_extent_zero_width (s : State) (h : ℕ) :
    ((s.screen_width = .fin 0 ∧ s.screen_height = .fin h) →
      faceTracking_resized s 0 h = false ∧ faceTracking_extent s 0 h = s) ∧
    ((s.screen_width ≠ .fin 0 ∨ s.screen_height ≠ .fin h) →
      faceTracking_resized s 0 h = true ∧
      (faceTracking_extent s 0 h).screen_width = .fin 0 ∧
      (faceTracking_extent s 0 h).screen_height = .fin h ∧
      (faceTracking_extent s 0 h).half_width = .fin (1/2) ∧
      Val.div (.fin h) (.fin 0) = (if h = 0 then .nan else .posInf) ∧
      (faceTracking_extent s 0 h).half_height = (if h = 0 then .nan else .posInf)) := by
  have hdiv : Val.div (.fin h) (.fin 0) = (if h = 0 then .nan else .posInf) := by
    by_cases hh : h = 0
    · simp [Val.div, hh]
    · have hq : (0 : ℚ) < h := by exact_mod_cast Nat.pos_of_ne_zero hh
      simp [Val.div, hh, hq]
  refine ⟨fun heq => ?_, fun hne => ?_⟩
  · have hr : faceTracking_resized s 0 h = false :=
      (faceTracking_resized_eq_false_iff s 0 h).mpr (by simpa using heq)
    exact ⟨hr, faceTracking_extent_of_not_resized s 0 h hr⟩
  · have hr : faceTracking_resized s 0 h = true :=
      (faceTracking_resized_iff s 0 h).mpr (by simpa using hne)
    rw [faceTracking_extent_of_resized s 0 h hr]
    refine ⟨hr, by simp, rfl, rfl, hdiv, ?_⟩
    simp only [Nat.cast_zero, hdiv]
    by_cases hh : h = 0 <;> simp [Val.div, hh]

/-- Claim C7, as amended, on the state left by a first step with a canvas of
800×400, when the canvas then has the size 0×400: the step recomputes and
`half_height` becomes `Infinity`. -/
theorem faceTracking_extent_zero_width_witness :
    faceTracking_resized
        (faceTracking_extent (trackingState originCamera none none) 800 400) 0 400 = true ∧
    (faceTracking_extent
        (faceTracking_extent (trackingState originCamera none none) 800 400) 0 400).half_height =
      (if 400 = 0 then .nan else .posInf) :=
  ⟨((faceTracking_extent_zero_width
      (faceTracking_extent (trackingState originCamera none none) 800 400) 400).2
      (Or.inl (by
        rw [faceTracking_extent_of_resized (trackingState originCamera none none) 800 400 rfl]
        simp))).1,
   ((faceTracking_extent_zero_width
      (faceTracking_extent (trackingState originCamera none none) 800 400) 400).2
      (Or.inl (by
        rw [faceTracking_extent_of_resized (trackingState originCamera none none) 800 400 rfl]
        simp))).2.2.2.2.2⟩

/-- Claim C7 fails as stated: with the size 800×400 cached (`half_width = 1/2`,
`half_height = 1/4`), a canvas of 0×400 is not skipped. The step takes the
branch, stores the width 0, divides 400 by 0 and leaves `half_height` at
`Infinity` instead of `1/4`. -/
theorem faceTracking_extent_divides_by_zero_width :
    (faceTracking_extent (trackingState originCamera none none) 800 400).half_width =
      .fin (1/2) ∧
    (faceTracking_extent (trackingState originCamera none none) 800 400).half_height =
      .fin (1/4) ∧
    faceTracking_resized
        (faceTracking_extent (trackingState originCamera none none) 800 400) 0 400 = true ∧
    (faceTracking_extent
        (faceTracking_extent (trackingState originCamera none none) 800 400) 0 400).screen_width =
      .fin 0 ∧
    Val.div (.fin ((400 : ℕ) : ℚ)) (.fin ((0 : ℕ) : ℚ)) = .posInf ∧
    (faceTracking_extent
        (faceTracking_extent (trackingState originCamera none none) 800 400) 0 400).half_height =
      .posInf ∧
    (faceTracking_extent
        (faceTracking_extent (trackingState originCamera none none) 800 400) 0 400).half_height ≠
      (faceTracking_extent (trackingState originCamera none none) 800 400).half_height := by
  have h1 : faceTracking_extent (trackingState originCamera none none) 800 400 =
      { trackingState originCamera none none with
        screen_width := .fin 800
        screen_height := .fin 400
        half_width := .fin (1/2)
        half_height := .fin (1/4) } := by
    rw [faceTracking_extent_of_resized (trackingState originCamera none none) 800 400 rfl]
    norm_num [trackingState, moduleState, Val.div]
  have hr : faceTracking_resized
      (faceTracking_extent (trackingState originCamera none none) 800 400) 0 400 = true := by
    rw [faceTracking_resized_iff, h1]
    left
    simp
  have hdiv : Val.div (.fin ((400 : ℕ) : ℚ)) (.fin ((0 : ℕ) : ℚ)) = .posInf := by
    norm_num [Val.div]
  have h2 : (faceTracking_extent
      (faceTracking_extent (trackingState originCamera none none) 800 400) 0 400).half_height =
      .posInf := by
    rw [faceTracking_extent_of_resized _ 0 400 hr]
    simp only [hdiv]
    norm_num [Val.div]
  refine ⟨by rw [h1], by rw [h1], hr, ?_, hdiv, h2, ?_⟩
  · rw [faceTracking_extent_of_resized _ 0 400 hr]
    simp
  · rw [h2, h1]
    simp

/-! ## Disabling on a detector error -/

theorem faceTracking_extent_animation_requests (s : State) (w h : ℕ) :
    (faceTracking_extent s w h).animation_requests = s.animation_requests := by
  unfold faceTracking_extent
  split <;> rfl

theorem faceTracking_guard_of_disabled (t : State) (hd : t.face_tracking_enabled = false) :
    faceTracking_guard t = true := by
  simp [faceTracking_guard, hd]

theorem faceTracking_of_disabled (t : State) (hd : t.face_tracking_enabled = false)
    (fr : Frame) : faceTracking t fr = t := by
  simp [faceTracking, faceTracking_start, faceTracking_guard_of_disabled t hd]

theorem runFrames_of_disabled (t : State) (hd : t.face_tracking_enabled = false)
    (later : List Frame) : runFrames t later = t := by
  induction later with
  | nil => rfl
  | cons fr rest ih => rw [runFrames, faceTracking_of_disabled t hd fr, ih]

theorem faceTracking_extent_detector_calls (s : State) (w h : ℕ) :
    (faceTracking_extent s w h).detector_calls = s.detector_calls := by
  unfold faceTracking_extent
  split <;> rfl

theorem faceTracking_extent_keydown_listeners (s : State) (w h : ℕ) :
    (faceTracking_extent s w h).keydown_listeners = s.keydown_listeners := by
  unfold faceTracking_extent
  split <;> rfl

theorem faceTracking_extent_enabled (s : State) (w h : ℕ) :
    (faceTracking_extent s w h).face_tracking_enabled = s.face_tracking_enabled := by
  unfold faceTracking_extent
  split <;> rfl

theorem faceTracking_extent_guard (s : State) (w h : ℕ) :
    faceTracking_guard (faceTracking_extent s w h) = faceTracking_guard s := by
  unfold faceTracking_extent
  split <;> rfl

/-- What holds when `estimateFaces` rejects with a value that is not nullish:
`face_tracking_enabled` becomes false and no animation frame is requested, both
from the completion of the call on and over the whole invocation; and in any
state with `face_tracking_enabled = false` an invocation of `faceTracking`
returns at the guard and leaves the whole state as it was (no detector call,
same camera, flag still false), so that any sequence of later invocations
leaves the state reached after the error unchanged. -/
theorem faceTracking_value_error_disables (s : State) (cw ch vw vh : ℕ)
    (msg : Option String) (later : List Frame) :
    ((faceTracking_resume s vw vh (.error (.value msg))).face_tracking_enabled = false ∧
      (faceTracking_resume s vw vh (.error (.value msg))).animation_requests =
        s.animation_requests) ∧
    (faceTracking_guard s = false →
      (faceTracking s ⟨cw, ch, vw, vh, .error (.value msg)⟩).face_tracking_enabled = false ∧
      (faceTracking s ⟨cw, ch, vw, vh, .error (.value msg)⟩).animation_requests =
        s.animation_requests ∧
      runFrames (faceTracking s ⟨cw, ch, vw, vh, .error (.value msg)⟩) later =
        faceTracking s ⟨cw, ch, vw, vh, .error (.value msg)⟩) ∧
    (∀ t : State, t.face_tracking_enabled = false →
      ∀ fr : Frame,
        faceTracking_start t fr.canvas_width fr.canvas_height = none ∧
        faceTracking t fr = t ∧
        (faceTracking t fr).detector_calls = t.detector_calls ∧
        (faceTracking t fr).virtual_camera = t.virtual_camera ∧
        (faceTracking t fr).face_tracking_enabled = false ∧
        (faceTracking t fr).animation_requests = t.animation_requests) ∧
    (∀ t : State, t.face_tracking_enabled = false → runFrames t later = t) ∧
    runFrames (faceTracking_resume s vw vh (.error (.value msg))) later =
      faceTracking_resume s vw vh (.error (.value msg)) := by
  have herr :
      (faceTracking_resume s vw vh (.error (.value msg))).face_tracking_enabled = false := rfl
  refine ⟨⟨herr, rfl⟩, fun hg => ?_, fun t hd fr => ?_,
    fun t hd => runFrames_of_disabled t hd later, runFrames_of_disabled _ herr later⟩
  · rw [faceTracking_of_guard s _ hg]
    exact ⟨rfl, faceTracking_extent_animation_requests s cw ch,
      runFrames_of_disabled _ rfl later⟩
  · rw [faceTracking_of_disabled t hd fr]
    refine ⟨?_, rfl, rfl, rfl, hd, rfl⟩
    simp [faceTracking_start, faceTracking_guard_of_disabled t hd]

/-- Claim C9 fails on the code. On the first frame of a session (canvas 800×400,
video frame 640×480) the call of `estimateFaces` rejects with `undefined`.
Line 286 throws on `error.message`, so lines 288-290 do not run:
`face_tracking_enabled` is still true, no `keydown` listener is added, the
camera is not reset and no animation frame is requested. The state still
passes the guard, and a later invocation calls the detector again. With a
thrown value that is not nullish the same frame ends with the flag false and
the keyboard fallback installed, as the comments on lines 287 and 289 say. -/
theorem faceTracking_nullish_rejection_keeps_tracking_enabled :
    (faceTracking (trackingState originCamera none none)
        ⟨800, 400, 640, 480, .error .nullish⟩).face_tracking_enabled = true ∧
    (faceTracking (trackingState originCamera none none)
        ⟨800, 400, 640, 480, .error .nullish⟩).keydown_listeners = 0 ∧
    (faceTracking (trackingState originCamera none none)
        ⟨800, 400, 640, 480, .error .nullish⟩).virtual_camera = originCamera ∧
    (faceTracking (trackingState originCamera none none)
        ⟨800, 400, 640, 480, .error .nullish⟩).animation_requests = 0 ∧
    (faceTracking (trackingState originCamera none none)
        ⟨800, 400, 640, 480, .error .nullish⟩).detector_calls = 1 ∧
    faceTracking_guard
        (faceTracking (trackingState originCamera none none)
          ⟨800, 400, 640, 480, .error .nullish⟩) = false ∧
    (faceTracking
        (faceTracking (trackingState originCamera none none)
          ⟨800, 400, 640, 480, .error .nullish⟩)
        ⟨800, 400, 640, 480, .ok []⟩).detector_calls = 2 ∧
    (faceTracking (trackingState originCamera none none)
        ⟨800, 400, 640, 480, .error (.value (some "model runtime fault"))⟩).face_tracking_enabled
      = false ∧
    (faceTracking (trackingState originCamera none none)
        ⟨800, 400, 640, 480, .error (.value (some "model runtime fault"))⟩).keydown_listeners
      = 1 := by
  have hg : faceTracking_guard (trackingState originCamera none none) = false := rfl
  have h1 : faceTracking (trackingState originCamera none none)
        ⟨800, 400, 640, 480, .error .nullish⟩ =
      { faceTracking_extent (trackingState originCamera none none) 800 400 with
        detector_calls :=
          (faceTracking_extent (trackingState originCamera none none) 800 400).detector_calls
            + 1 } := by
    rw [faceTracking_of_guard _ _ hg]
    rfl
  have hg1 : faceTracking_guard
        (faceTracking (trackingState originCamera none none)
          ⟨800, 400, 640, 480, .error .nullish⟩) = false := by
    rw [h1]
    exact (faceTracking_extent_guard _ 800 400).trans hg
  refine ⟨?_, ?_, ?_, ?_, ?_, hg1, ?_, ?_, ?_⟩
  · rw [h1]
    exact faceTracking_extent_enabled _ 800 400
  · rw [h1]
    exact faceTracking_extent_keydown_listeners _ 800 400
  · rw [h1]
    exact faceTracking_extent_camera _ 800 400
  · rw [h1]
    exact faceTracking_extent_animation_requests _ 800 400
  · rw [h1]
    simp only [faceTracking_extent_detector_calls]
    rfl
  · rw [faceTracking_of_guard _ _ hg1]
    simp only [faceTracking_resume, faceTracking_extent_enabled,
      faceTracking_extent_detector_calls, h1]
    split <;> rfl
  · rw [faceTracking_of_guard _ _ hg]
    rfl
  · rw [faceTracking_of_guard _ _ hg]
    simp only [faceTracking_resume, initializeBasicCameraControl, updateStatus,
      disableTracking, faceTracking_extent_keydown_listeners]
    rfl

/-! ## Completion of a pending detector call after tracking was disabled -/

/-- Claim C10, as amended: when `face_tracking_enabled` is false at the moment a
pending call of `estimateFaces` completes with a non-empty array, the result is
not discarded: the camera position and the projection matrix are set from the
first prediction exactly as in an active frame. No animation frame is
requested and the flag stays false. -/
theorem faceTracking_resume_when_disabled (s : State) (vw vh : ℕ) (p : Prediction)
    (rest : List Prediction) (hd : s.face_tracking_enabled = false) :
    cameraTracks (faceTracking_resume s vw vh (.ok (p :: rest))).virtual_camera
      (center_x p vw) (center_y p vh) s.half_width s.half_height ∧
    (faceTracking_resume s vw vh (.ok (p :: rest))).animation_requests =
      s.animation_requests ∧
    (faceTracking_resume s vw vh (.ok (p :: rest))).face_tracking_enabled = false := by
  refine ⟨?_, ?_, ?_⟩
  · rw [faceTracking_resume_camera_ok]
    exact ⟨rfl, rfl, rfl, rfl⟩
  · simp [faceTracking_resume, faceTracking_detected, hd]
  · simp [faceTracking_resume, faceTracking_detected, hd]

/-- Claim C10, as amended, on a call started in the first frame of a session
(canvas 800×400) that completes after tracking was disabled, with a video
frame of 640×480 and the box (0,0)-(100,100). -/
theorem faceTracking_resume_when_disabled_witness :
    cameraTracks
      (faceTracking_resume
        (disableTracking (faceTracking_extent (trackingState originCamera none none) 800 400))
        640 480 (.ok [boxPrediction 0 0 100 100])).virtual_camera
      (center_x (boxPrediction 0 0 100 100) 640) (center_y (boxPrediction 0 0 100 100) 480)
      (faceTracking_extent (trackingState originCamera none none) 800 400).half_width
      (faceTracking_extent (trackingState originCamera none none) 800 400).half_height ∧
    (faceTracking_resume
        (disableTracking (faceTracking_extent (trackingState originCamera none none) 800 400))
        640 480 (.ok [boxPrediction 0 0 100 100])).animation_requests =
      (faceTracking_extent (trackingState originCamera none none) 800 400).animation_requests ∧
    (faceTracking_resume
        (disableTracking (faceTracking_extent (trackingState originCamera none none) 800 400))
        640 480 (.ok [boxPrediction 0 0 100 100])).face_tracking_enabled = false :=
  faceTracking_resume_when_disabled
    (disableTracking (faceTracking_extent (trackingState originCamera none none) 800 400))
    640 480 (boxPrediction 0 0 100 100) [] rfl

/-- Claim C10 fails as stated: a call started in the first frame of a session
(canvas 800×400) completes with the box (0,0)-(100,100) on a video frame of
640×480 after `face_tracking_enabled` was set to false. The camera, at the
origin before, is moved to `(27/64, 19/96, 2.5)`; no animation frame is
requested. -/
theorem faceTracking_resume_applies_result_when_disabled :
    (disableTracking (faceTracking_extent (trackingState originCamera none none) 800 400)).face_tracking_enabled = false ∧
    (disableTracking (faceTracking_extent (trackingState originCamera none none) 800 400)).virtual_camera.position =
      ⟨.fin 0, .fin 0, .fin 0⟩ ∧
    (faceTracking_resume
        (disableTracking (faceTracking_extent (trackingState originCamera none none) 800 400))
        640 480 (.ok [boxPrediction 0 0 100 100])).virtual_camera.position =
      ⟨.fin (27/64), .fin (19/96), .fin (5/2)⟩ ∧
    (faceTracking_resume
        (disableTracking (faceTracking_extent (trackingState originCamera none none) 800 400))
        640 480 (.ok [boxPrediction 0 0 100 100])).virtual_camera ≠
      (disableTracking (faceTracking_extent (trackingState originCamera none none) 800 400)).virtual_camera := by
  have hpos : (faceTracking_resume
        (disableTracking (faceTracking_extent (trackingState originCamera none none) 800 400))
        640 480 (.ok [boxPrediction 0 0 100 100])).virtual_camera.position =
      ⟨.fin (27/64), .fin (19/96), .fin (5/2)⟩ := by
    rw [faceTracking_resume_camera_ok]
    simp only [faceTracking_detected, disableTracking,
      faceTracking_extent_of_resized (trackingState originCamera none none) 800 400 rfl]
    rw [center_x_fin _ _ (by norm_num), center_y_fin _ _ (by norm_num)]
    norm_num [Val.div, Val.mul, Val.neg, boxPrediction]
  have hold : (disableTracking (faceTracking_extent (trackingState originCamera none none) 800 400)).virtual_camera.position =
      ⟨.fin 0, .fin 0, .fin 0⟩ := by
    simp only [disableTracking, faceTracking_extent_camera]
    rfl
  refine ⟨rfl, hold, hpos, ?_⟩
  intro h
  rw [h, hold] at hpos
  norm_num at hpos

end FaceTracker
